import Mathlib

/-!
Shallow embedding of the `postgres` package of go-gorm-unit-of-work.

The transaction context (`transaction_context.go`) is a small state machine
over three fields: a nullable transaction handle `tx`, a nullable owning
token `transactionUUID`, and a monotone `rollbacked` flag.  The database
itself is external: each operation that talks to the database takes the
database's answer (success or an error string) as an explicit parameter,
and additionally reports the list of database actions it issued, so that
"performs no database operation" is statable.  UUIDs are modelled as `Nat`
(only freshness/equality of tokens matters); the logger is omitted because
logging has no effect on state or results.
-/

namespace GormUOW

/-- Configuration record, from `PgConfig` in the source. -/
structure PgConfig where
  host : String
  dbName : String
  schema : String
  user : String
  password : String
  maxOpenConnections : Int
  connectionMaxLifetimeMS : Int
  logMode : Bool
  sslMode : String
deriving DecidableEq, Repr

/-- A `*gorm.DB` handle: either the base connection or a transaction handle
returned by the database's `Begin`; `error` models the gorm `.Error` field,
and `cfg` records which configuration the underlying connection was opened
with (`none` models a nil `*PgConfig`). -/
structure GormDB where
  isTx : Bool
  error : Option String
  cfg : Option PgConfig
deriving DecidableEq, Repr

/-- `NewConnect` from the source: opens a connection from the given
configuration.  Its failure paths (retry exhaustion, panic) terminate the
process and produce no returned value, so only the successful open is
modelled: a non-transactional handle tagged with the configuration it was
opened from (the physical connection being external to the program). -/
def NewConnect (config : Option PgConfig) : GormDB :=
  { isTx := false, error := none, cfg := config }

/-- `DatabaseHolder` wraps one connection, from part_001 of the source. -/
structure DatabaseHolder where
  dbConnection : GormDB
deriving DecidableEq, Repr

/-- `NewDBHolder` from the source. -/
def NewDBHolder (db : GormDB) : DatabaseHolder :=
  { dbConnection := db }

/-- Process-level state of the `dbHolder` / `onceDBHolder` globals of
part_001: whether the `sync.Once` has fired, the stored singleton, and a
count of connections opened so far (each `NewConnect` call is one open). -/
structure HolderState where
  onceDone : Bool
  dbHolder : Option DatabaseHolder
  opens : Nat
deriving DecidableEq, Repr

/-- The process starts with the `sync.Once` unfired, a nil `dbHolder`, and
no connection opened. -/
def initialHolderState : HolderState :=
  { onceDone := false, dbHolder := none, opens := 0 }

/-- `NewDBHolderInstance` from part_001: `onceDBHolder.Do` runs the
initializer (open a connection, wrap it) only if it has not fired yet,
then the stored `dbHolder` is returned. -/
def NewDBHolderInstance (config : Option PgConfig) (st : HolderState) :
    Option DatabaseHolder × HolderState :=
  if st.onceDone then (st.dbHolder, st)
  else
    let h := NewDBHolder (NewConnect config)
    (some h, { onceDone := true, dbHolder := some h, opens := st.opens + 1 })

/-- Error values surfaced by the transaction context, from the `errors.New`
variables and the error returns of the source: `ErrTxWasRollbacked`,
`ErrNotInTransaction`, a `uuid.NewRandom` failure, and an underlying
database error (carried verbatim as its message). -/
inductive TxError where
  | txWasRollbacked
  | notInTransaction
  | uuidGenError
  | dbError (msg : String)
deriving DecidableEq, Repr

/-- Database actions a transaction-context operation can issue. -/
inductive DbAction where
  | dbBegin
  | dbCommit
  | dbRollback
deriving DecidableEq, Repr

/-- The `transactionContext` struct: `dbHolder`, nullable `tx`, nullable
`transactionUUID`, and the `rollbacked` flag (the logger field is omitted). -/
structure transactionContext where
  dbHolder : DatabaseHolder
  tx : Option GormDB
  transactionUUID : Option Nat
  rollbacked : Bool
deriving DecidableEq, Repr

/-- `newTransactionContext` from the source: empty handle and token, flag
clear. -/
def newTransactionContext (h : DatabaseHolder) : transactionContext :=
  { dbHolder := h, tx := none, transactionUUID := none, rollbacked := false }

/-- `wasRollbacked` from the source. -/
def transactionContext.wasRollbacked (c : transactionContext) : Bool :=
  c.rollbacked

/-- `inTransaction` from the source: `c.tx != nil && c.transactionUUID != nil`. -/
def transactionContext.inTransaction (c : transactionContext) : Bool :=
  c.tx.isSome && c.transactionUUID.isSome

/-- `dispose` from the source: clears handle and token. -/
def transactionContext.dispose (c : transactionContext) : transactionContext :=
  { c with tx := none, transactionUUID := none }

/-- `disposeAfterRollback` from the source: sets the flag, then disposes. -/
def transactionContext.disposeAfterRollback (c : transactionContext) : transactionContext :=
  transactionContext.dispose { c with rollbacked := true }

/-- `providerWithoutTransaction` from the source. -/
def transactionContext.providerWithoutTransaction (c : transactionContext) : GormDB :=
  c.dbHolder.dbConnection

/-- Result of `Begin`: the returned UUID (0 models the zero `uuid.UUID`
returned alongside an early error), the returned error, the context after
the call, and the database actions issued. -/
structure BeginResult where
  id : Nat
  err : Option TxError
  ctx : transactionContext
  actions : List DbAction
deriving DecidableEq, Repr

/-- Result of `Commit` / `Rollback`: returned error, context after the
call, database actions issued. -/
structure OpResult where
  err : Option TxError
  ctx : transactionContext
  actions : List DbAction
deriving DecidableEq, Repr

/-- `Begin` from the source.  Environment parameters: `freshId` is the
UUID `uuid.NewRandom` would produce, `uuidErr` whether it fails instead,
and `beginErr` the `.Error` carried by the handle the database's `Begin`
returns.  When not already in a transaction the code stores the token and
the new handle first and only then inspects `c.tx.Error`, so on a begin
error the handle and token stay stored. -/
def transactionContext.Begin (c : transactionContext) (freshId : Nat)
    (uuidErr : Bool) (beginErr : Option String) : BeginResult :=
  if c.wasRollbacked then
    { id := 0, err := some .txWasRollbacked, ctx := c, actions := [] }
  else if uuidErr then
    { id := 0, err := some .uuidGenError, ctx := c, actions := [] }
  else if !c.inTransaction then
    let txHandle : GormDB :=
      { isTx := true, error := beginErr, cfg := c.dbHolder.dbConnection.cfg }
    let c' : transactionContext :=
      { c with transactionUUID := some freshId, tx := some txHandle }
    match beginErr with
    | some e => { id := freshId, err := some (.dbError e), ctx := c', actions := [.dbBegin] }
    | none => { id := freshId, err := none, ctx := c', actions := [.dbBegin] }
  else
    { id := freshId, err := none, ctx := c, actions := [] }

/-- `Commit` from the source.  `commitErr` is the `.Error` the database's
`Commit` would report.  A non-owning token returns nil before the deferred
`dispose` is registered; the owning path disposes regardless of the
database's answer. -/
def transactionContext.Commit (c : transactionContext) (id : Nat)
    (commitErr : Option String) : OpResult :=
  if c.wasRollbacked then
    { err := some .txWasRollbacked, ctx := c, actions := [] }
  else if !c.inTransaction then
    { err := some .notInTransaction, ctx := c, actions := [] }
  else if c.transactionUUID ≠ some id then
    { err := none, ctx := c, actions := [] }
  else
    match commitErr with
    | some e => { err := some (.dbError e), ctx := c.dispose, actions := [.dbCommit] }
    | none => { err := none, ctx := c.dispose, actions := [.dbCommit] }

/-- `Rollback` from the source.  `rollbackErr` is the `.Error` the
database's `Rollback` would report; the deferred `disposeAfterRollback`
runs regardless of it. -/
def transactionContext.Rollback (c : transactionContext)
    (rollbackErr : Option String) : OpResult :=
  if c.wasRollbacked then
    { err := some .txWasRollbacked, ctx := c, actions := [] }
  else if !c.inTransaction then
    { err := none, ctx := c, actions := [] }
  else
    match rollbackErr with
    | some e =>
        { err := some (.dbError e), ctx := c.disposeAfterRollback, actions := [.dbRollback] }
    | none => { err := none, ctx := c.disposeAfterRollback, actions := [.dbRollback] }

/-- `Provider` from the source: `none` models the nil return after a
rollback; otherwise the stored transaction handle, or the holder's bare
connection. -/
def transactionContext.Provider (c : transactionContext) : Option GormDB :=
  if c.wasRollbacked then none
  else if c.inTransaction then c.tx
  else some c.providerWithoutTransaction

/-- One call to a transaction-context operation, with its environment
parameters (the caller-chosen token for `Commit`, the database's answers). -/
inductive Op where
  | beginOp (freshId : Nat) (uuidErr : Bool) (beginErr : Option String)
  | commitOp (id : Nat) (commitErr : Option String)
  | rollbackOp (rollbackErr : Option String)
  | providerOp
deriving DecidableEq, Repr

/-- The context after one operation (`Provider` does not change state). -/
def execOp (c : transactionContext) : Op → transactionContext
  | .beginOp f u b => (c.Begin f u b).ctx
  | .commitOp i e => (c.Commit i e).ctx
  | .rollbackOp e => (c.Rollback e).ctx
  | .providerOp => c

/-- The context after a sequence of operations. -/
def execOps (c : transactionContext) (ops : List Op) : transactionContext :=
  ops.foldl execOp c

/-- Idle state of the spec's state machine: no handle, no token, flag
clear. -/
def transactionContext.Idle (c : transactionContext) : Prop :=
  c.tx = none ∧ c.transactionUUID = none ∧ c.rollbacked = false

/-- Active state of the spec's state machine: handle and token stored,
flag clear. -/
def transactionContext.Active (c : transactionContext) : Prop :=
  c.tx.isSome = true ∧ c.transactionUUID.isSome = true ∧ c.rollbacked = false

/-- RolledBack (terminal) state of the spec's state machine. -/
def transactionContext.RolledBack (c : transactionContext) : Prop :=
  c.rollbacked = true

/-- Invariant A of the spec: handle and token both present or both absent. -/
def bothOrNeither (c : transactionContext) : Prop :=
  c.tx.isSome = true ↔ c.transactionUUID.isSome = true

instance (c : transactionContext) : Decidable c.Idle := by
  unfold transactionContext.Idle; infer_instance

instance (c : transactionContext) : Decidable c.Active := by
  unfold transactionContext.Active; infer_instance

instance (c : transactionContext) : Decidable c.RolledBack := by
  unfold transactionContext.RolledBack; infer_instance

instance (c : transactionContext) : Decidable (bothOrNeither c) := by
  unfold bothOrNeither; infer_instance

/-- A concrete holder over a connection opened with a nil configuration,
used for concrete test states. -/
def holder0 : DatabaseHolder := NewDBHolder (NewConnect none)

/-- A concrete context in the Active state: a live transaction handle and
owning token 7. -/
def activeCtx : transactionContext :=
  { dbHolder := holder0
    tx := some { isTx := true, error := none, cfg := none }
    transactionUUID := some 7
    rollbacked := false }

/-- A sample non-nil configuration, used for concrete singleton calls. -/
def sampleCfg : PgConfig :=
  { host := "h"
    dbName := "d"
    schema := "s"
    user := "u"
    password := "p"
    maxOpenConnections := 5
    connectionMaxLifetimeMS := 60000
    logMode := true
    sslMode := "disable" }

/-- A concrete context in the RolledBack state. -/
def rolledBackCtx : transactionContext :=
  { dbHolder := holder0
    tx := none
    transactionUUID := none
    rollbacked := true }

theorem Begin_of_rollbacked (c : transactionContext) (f : Nat) (u : Bool)
    (b : Option String) (h : c.rollbacked = true) :
    c.Begin f u b = { id := 0, err := some .txWasRollbacked, ctx := c, actions := [] } := by
  simp [transactionContext.Begin, transactionContext.wasRollbacked, h]

theorem Commit_of_rollbacked (c : transactionContext) (i : Nat) (ce : Option String)
    (h : c.rollbacked = true) :
    c.Commit i ce = { err := some .txWasRollbacked, ctx := c, actions := [] } := by
  simp [transactionContext.Commit, transactionContext.wasRollbacked, h]

theorem Rollback_of_rollbacked (c : transactionContext) (re : Option String)
    (h : c.rollbacked = true) :
    c.Rollback re = { err := some .txWasRollbacked, ctx := c, actions := [] } := by
  simp [transactionContext.Rollback, transactionContext.wasRollbacked, h]

theorem execOp_of_rollbacked (c : transactionContext) (op : Op)
    (h : c.rollbacked = true) : execOp c op = c := by
  cases op with
  | beginOp f u b => simp [execOp, Begin_of_rollbacked c f u b h]
  | commitOp i ce => simp [execOp, Commit_of_rollbacked c i ce h]
  | rollbackOp re => simp [execOp, Rollback_of_rollbacked c re h]
  | providerOp => rfl

theorem execOps_of_rollbacked (c : transactionContext) (ops : List Op)
    (h : c.rollbacked = true) : execOps c ops = c := by
  induction ops with
  | nil => rfl
  | cons op rest ih =>
      show execOps (execOp c op) rest = c
      rw [execOp_of_rollbacked c op h, ih]

theorem Rollback_of_active (c : transactionContext) (e : Option String)
    (h : c.Active) : (c.Rollback e).ctx = c.disposeAfterRollback := by
  obtain ⟨h1, h2, h3⟩ := h
  cases e <;>
    simp [transactionContext.Rollback, transactionContext.wasRollbacked,
      transactionContext.inTransaction, h1, h2, h3]

theorem Commit_of_no_transaction (c : transactionContext) (i : Nat) (ce : Option String)
    (hrb : c.rollbacked = false) (hin : c.inTransaction = false) :
    c.Commit i ce = { err := some .notInTransaction, ctx := c, actions := [] } := by
  simp [transactionContext.Commit, transactionContext.wasRollbacked, hrb, hin]

/-- C1 counterexample: on an Active context storing owning token 7, `Begin`
returns the freshly generated identifier 42, not the stored token — the
claim that nested `Begin` returns the existing stored owning token is
false on the code. -/
theorem C1_counterexample :
    activeCtx.Active ∧
    activeCtx.transactionUUID = some 7 ∧
    (activeCtx.Begin 42 false none).id = 42 ∧
    some (activeCtx.Begin 42 false none).id ≠ activeCtx.transactionUUID := by
  decide

/-- C1 (amended): from the Active state, `Begin` returns the freshly
generated identifier (not the stored owning token), reports no error,
opens no new database transaction, and leaves the stored handle and token
(the whole context) unchanged. -/
theorem C1_begin_on_active_joins (c : transactionContext) (freshId : Nat)
    (beginErr : Option String) (h : c.Active) :
    (c.Begin freshId false beginErr).id = freshId ∧
    (c.Begin freshId false beginErr).err = none ∧
    (c.Begin freshId false beginErr).ctx = c ∧
    (c.Begin freshId false beginErr).actions = [] := by
  obtain ⟨h1, h2, h3⟩ := h
  simp [transactionContext.Begin, transactionContext.wasRollbacked,
    transactionContext.inTransaction, h1, h2, h3]

/-- C1 witness: the amended theorem evaluated on a concrete Active context. -/
theorem C1_begin_on_active_joins_witness :
    activeCtx.Active ∧
    ((activeCtx.Begin 42 false none).id = 42 ∧
     (activeCtx.Begin 42 false none).err = none ∧
     (activeCtx.Begin 42 false none).ctx = activeCtx ∧
     (activeCtx.Begin 42 false none).actions = []) :=
  ⟨by decide, C1_begin_on_active_joins activeCtx 42 none (by decide)⟩

/-- C2: rolling back an Active context — whether the database rollback
succeeds or fails — sets the rolled-back flag; the flag survives every
later operation sequence, and after any such sequence `Begin`, `Commit`
and `Rollback` all fail with the rolled-back error and leave the context
unchanged. -/
theorem C2_rollback_is_terminal (c : transactionContext) (e : Option String)
    (ops : List Op) (h : c.Active) :
    (c.Rollback e).ctx.rollbacked = true ∧
    (execOps (c.Rollback e).ctx ops).rollbacked = true ∧
    (∀ f u b, ((execOps (c.Rollback e).ctx ops).Begin f u b).err = some .txWasRollbacked ∧
      ((execOps (c.Rollback e).ctx ops).Begin f u b).ctx = execOps (c.Rollback e).ctx ops) ∧
    (∀ i ce, ((execOps (c.Rollback e).ctx ops).Commit i ce).err = some .txWasRollbacked ∧
      ((execOps (c.Rollback e).ctx ops).Commit i ce).ctx = execOps (c.Rollback e).ctx ops) ∧
    (∀ re, ((execOps (c.Rollback e).ctx ops).Rollback re).err = some .txWasRollbacked ∧
      ((execOps (c.Rollback e).ctx ops).Rollback re).ctx = execOps (c.Rollback e).ctx ops) := by
  have hctx : (c.Rollback e).ctx = c.disposeAfterRollback := Rollback_of_active c e h
  have hrb : (c.Rollback e).ctx.rollbacked = true := by
    rw [hctx]; rfl
  have hops : execOps (c.Rollback e).ctx ops = (c.Rollback e).ctx :=
    execOps_of_rollbacked _ ops hrb
  refine ⟨hrb, by rw [hops]; exact hrb, ?_, ?_, ?_⟩
  · intro f u b
    rw [hops, Begin_of_rollbacked _ f u b hrb]
    exact ⟨rfl, rfl⟩
  · intro i ce
    rw [hops, Commit_of_rollbacked _ i ce hrb]
    exact ⟨rfl, rfl⟩
  · intro re
    rw [hops, Rollback_of_rollbacked _ re hrb]
    exact ⟨rfl, rfl⟩

/-- C2 witness: the theorem evaluated on a concrete Active context, with a
failing database rollback and an intervening `Commit` attempt. -/
theorem C2_rollback_is_terminal_witness :
    activeCtx.Active ∧
    ((execOps (activeCtx.Rollback (some "boom")).ctx [Op.commitOp 5 none]).Begin 9 false
      none).err = some TxError.txWasRollbacked :=
  ⟨by decide,
    ((C2_rollback_is_terminal activeCtx (some "boom") [Op.commitOp 5 none]
      (by decide)).2.2.1 9 false none).1⟩

/-- C3: from the Active state, `Commit` with a token different from the
stored owning token returns nil, issues no database action, and leaves
the context unchanged. -/
theorem C3_commit_nonowner_noop (c : transactionContext) (id : Nat)
    (ce : Option String) (h : c.Active) (hne : c.transactionUUID ≠ some id) :
    c.Commit id ce = { err := none, ctx := c, actions := [] } := by
  obtain ⟨h1, h2, h3⟩ := h
  simp [transactionContext.Commit, transactionContext.wasRollbacked,
    transactionContext.inTransaction, h1, h2, h3, hne]

/-- C3 witness: a non-owning commit (token 42 against stored token 7) on a
concrete Active context. -/
theorem C3_commit_nonowner_noop_witness :
    activeCtx.Active ∧ activeCtx.transactionUUID ≠ some 42 ∧
    activeCtx.Commit 42 none = { err := none, ctx := activeCtx, actions := [] } :=
  ⟨by decide, by decide, C3_commit_nonowner_noop activeCtx 42 none (by decide) (by decide)⟩

/-- C4: from the Active state, `Commit` with the stored owning token (and a
succeeding database commit) returns nil, issues the database commit, and
moves the context to Idle; afterwards any `Commit` with any token fails
with the not-in-transaction error, as does `Commit` on a fresh context. -/
theorem C4_commit_owner_finalizes (c : transactionContext) (tok : Nat)
    (h : c.Active) (htok : c.transactionUUID = some tok) :
    (c.Commit tok none).err = none ∧
    (c.Commit tok none).actions = [.dbCommit] ∧
    (c.Commit tok none).ctx.Idle ∧
    (∀ i ce, ((c.Commit tok none).ctx.Commit i ce).err = some .notInTransaction ∧
      ((c.Commit tok none).ctx.Commit i ce).ctx = (c.Commit tok none).ctx) ∧
    (∀ hld i ce, ((newTransactionContext hld).Commit i ce).err = some .notInTransaction) := by
  obtain ⟨h1, h2, h3⟩ := h
  have hc : c.Commit tok none = { err := none, ctx := c.dispose, actions := [.dbCommit] } := by
    simp [transactionContext.Commit, transactionContext.wasRollbacked,
      transactionContext.inTransaction, h1, h2, h3, htok]
  have hidle : (c.Commit tok none).ctx.Idle := by
    rw [hc]
    exact ⟨rfl, rfl, h3⟩
  refine ⟨by rw [hc], by rw [hc], hidle, ?_, ?_⟩
  · intro i ce
    have hafter :
        (c.Commit tok none).ctx.Commit i ce =
          { err := some .notInTransaction, ctx := (c.Commit tok none).ctx, actions := [] } :=
      Commit_of_no_transaction _ i ce hidle.2.2
        (by simp [transactionContext.inTransaction, hidle.1])
    rw [hafter]
    exact ⟨rfl, rfl⟩
  · intro hld i ce
    rw [Commit_of_no_transaction (newTransactionContext hld) i ce rfl rfl]

/-- C4 witness: the theorem evaluated on a concrete Active context with
owning token 7, then a repeated `Commit` and a fresh-context `Commit`. -/
theorem C4_commit_owner_finalizes_witness :
    activeCtx.Active ∧ activeCtx.transactionUUID = some 7 ∧
    ((activeCtx.Commit 7 none).ctx.Commit 7 none).err = some TxError.notInTransaction ∧
    ((newTransactionContext holder0).Commit 3 none).err = some TxError.notInTransaction :=
  ⟨by decide, by decide,
    ((C4_commit_owner_finalizes activeCtx 7 (by decide) (by decide)).2.2.2.1 7 none).1,
    (C4_commit_owner_finalizes activeCtx 7 (by decide) (by decide)).2.2.2.2 holder0 3 none⟩

theorem execOp_preserves_bothOrNeither (c : transactionContext) (op : Op)
    (h : bothOrNeither c) : bothOrNeither (execOp c op) := by
  cases op with
  | beginOp f u b =>
      by_cases hrb : c.rollbacked
      · simpa [execOp, Begin_of_rollbacked c f u b hrb]
      · simp only [Bool.not_eq_true] at hrb
        by_cases hu : u
        · simpa [execOp, transactionContext.Begin, transactionContext.wasRollbacked, hrb, hu]
        · by_cases hin : c.inTransaction
          · cases b <;>
              simpa [execOp, transactionContext.Begin, transactionContext.wasRollbacked,
                hrb, hu, hin]
          · simp only [Bool.not_eq_true] at hin
            cases b <;>
              simp [execOp, transactionContext.Begin, transactionContext.wasRollbacked,
                hrb, hu, hin, bothOrNeither]
  | commitOp i ce =>
      by_cases hrb : c.rollbacked
      · simpa [execOp, Commit_of_rollbacked c i ce hrb]
      · simp only [Bool.not_eq_true] at hrb
        by_cases hin : c.inTransaction
        · by_cases hid : c.transactionUUID = some i
          · cases ce <;>
              simp [execOp, transactionContext.Commit, transactionContext.wasRollbacked,
                hrb, hin, hid, transactionContext.dispose, bothOrNeither]
          · simpa [execOp, transactionContext.Commit, transactionContext.wasRollbacked,
              hrb, hin, hid]
        · simp only [Bool.not_eq_true] at hin
          simpa [execOp, Commit_of_no_transaction c i ce hrb hin]
  | rollbackOp re =>
      by_cases hrb : c.rollbacked
      · simpa [execOp, Rollback_of_rollbacked c re hrb]
      · simp only [Bool.not_eq_true] at hrb
        by_cases hin : c.inTransaction
        · cases re <;>
            simp [execOp, transactionContext.Rollback, transactionContext.wasRollbacked,
              hrb, hin, transactionContext.disposeAfterRollback, transactionContext.dispose,
              bothOrNeither]
        · simp only [Bool.not_eq_true] at hin
          simpa [execOp, transactionContext.Rollback, transactionContext.wasRollbacked,
            hrb, hin]
  | providerOp => simpa [execOp]

theorem execOps_preserves_bothOrNeither (c : transactionContext) (ops : List Op)
    (h : bothOrNeither c) : bothOrNeither (execOps c ops) := by
  induction ops generalizing c with
  | nil => exact h
  | cons op rest ih =>
      show bothOrNeither (execOps (execOp c op) rest)
      exact ih _ (execOp_preserves_bothOrNeither c op h)

/-- C5: Invariant A — handle and token both present or both absent — holds
on a fresh context, is preserved by every operation from any state
satisfying it, and therefore holds after every operation sequence from a
fresh context. -/
theorem C5_invariantA (hld : DatabaseHolder) (ops : List Op) :
    bothOrNeither (newTransactionContext hld) ∧
    (∀ c op, bothOrNeither c → bothOrNeither (execOp c op)) ∧
    bothOrNeither (execOps (newTransactionContext hld) ops) := by
  have hnew : bothOrNeither (newTransactionContext hld) := Iff.rfl
  exact ⟨hnew, fun c op hc => execOp_preserves_bothOrNeither c op hc,
    execOps_preserves_bothOrNeither _ ops hnew⟩

/-- C5 witness: the invariant evaluated after a concrete sequence of
operations from a fresh context, and one concrete preservation step. -/
theorem C5_invariantA_witness :
    bothOrNeither activeCtx ∧
    bothOrNeither (execOp activeCtx (Op.rollbackOp (some "boom"))) ∧
    bothOrNeither (execOps (newTransactionContext holder0)
      [Op.beginOp 3 false none, Op.commitOp 3 none, Op.rollbackOp none]) :=
  ⟨by decide,
    (C5_invariantA holder0 []).2.1 activeCtx (Op.rollbackOp (some "boom")) (by decide),
    (C5_invariantA holder0 [Op.beginOp 3 false none, Op.commitOp 3 none,
      Op.rollbackOp none]).2.2⟩

/-- C6: from the Active state, `Commit` with the stored owning token and a
failing database commit returns the underlying database error verbatim,
still issues the database commit, and clears handle and token anyway —
the context ends up Idle despite the error. -/
theorem C6_commit_owner_db_failure (c : transactionContext) (tok : Nat) (e : String)
    (h : c.Active) (htok : c.transactionUUID = some tok) :
    c.Commit tok (some e) =
      { err := some (.dbError e), ctx := c.dispose, actions := [.dbCommit] } ∧
    (c.Commit tok (some e)).ctx.Idle := by
  obtain ⟨h1, h2, h3⟩ := h
  have hc : c.Commit tok (some e) =
      { err := some (.dbError e), ctx := c.dispose, actions := [.dbCommit] } := by
    simp [transactionContext.Commit, transactionContext.wasRollbacked,
      transactionContext.inTransaction, h1, h2, h3, htok]
  exact ⟨hc, by rw [hc]; exact ⟨rfl, rfl, h3⟩⟩

/-- C6 witness: a failing owner commit on a concrete Active context. -/
theorem C6_commit_owner_db_failure_witness :
    activeCtx.Active ∧ activeCtx.transactionUUID = some 7 ∧
    (activeCtx.Commit 7 (some "commit failed") =
      { err := some (.dbError "commit failed"), ctx := activeCtx.dispose,
        actions := [.dbCommit] } ∧
     (activeCtx.Commit 7 (some "commit failed")).ctx.Idle) :=
  ⟨by decide, by decide,
    C6_commit_owner_db_failure activeCtx 7 "commit failed" (by decide) (by decide)⟩

/-- C7: from the Idle state, `Begin` whose underlying database begin fails
returns that error, yet the freshly stored token and handle remain in the
context, which therefore still reports being in a transaction. -/
theorem C7_begin_db_failure_leaves_state (c : transactionContext) (freshId : Nat)
    (e : String) (h : c.Idle) :
    (c.Begin freshId false (some e)).err = some (.dbError e) ∧
    (c.Begin freshId false (some e)).ctx.transactionUUID = some freshId ∧
    (c.Begin freshId false (some e)).ctx.tx =
      some { isTx := true, error := some e, cfg := c.dbHolder.dbConnection.cfg } ∧
    (c.Begin freshId false (some e)).ctx.inTransaction = true := by
  obtain ⟨h1, h2, h3⟩ := h
  have hb : c.Begin freshId false (some e) =
      { id := freshId, err := some (.dbError e)
        ctx := { c with transactionUUID := some freshId
                        tx := some { isTx := true, error := some e
                                     cfg := c.dbHolder.dbConnection.cfg } }
        actions := [.dbBegin] } := by
    simp [transactionContext.Begin, transactionContext.wasRollbacked,
      transactionContext.inTransaction, h1, h2, h3]
  rw [hb]
  exact ⟨rfl, rfl, rfl, rfl⟩

/-- C7 witness: a failing database begin on a concrete fresh context. -/
theorem C7_begin_db_failure_leaves_state_witness :
    (newTransactionContext holder0).Idle ∧
    (((newTransactionContext holder0).Begin 5 false (some "begin failed")).err =
        some (.dbError "begin failed") ∧
      ((newTransactionContext holder0).Begin 5 false (some "begin failed")).ctx.transactionUUID =
        some 5 ∧
      ((newTransactionContext holder0).Begin 5 false (some "begin failed")).ctx.tx =
        some { isTx := true, error := some "begin failed"
               cfg := (newTransactionContext holder0).dbHolder.dbConnection.cfg } ∧
      ((newTransactionContext holder0).Begin 5 false (some "begin failed")).ctx.inTransaction =
        true) :=
  ⟨by decide, C7_begin_db_failure_leaves_state (newTransactionContext holder0) 5
    "begin failed" (by decide)⟩

/-- C8: `Provider` returns the stored transaction handle in the Active
state, the holder's bare connection in the Idle state, and nothing in the
RolledBack state. -/
theorem C8_provider_by_state (c : transactionContext) :
    (c.Active → c.Provider = c.tx) ∧
    (c.Idle → c.Provider = some c.dbHolder.dbConnection) ∧
    (c.RolledBack → c.Provider = none) := by
  refine ⟨fun h => ?_, fun h => ?_, fun h => ?_⟩
  · obtain ⟨h1, h2, h3⟩ := h
    simp [transactionContext.Provider, transactionContext.wasRollbacked,
      transactionContext.inTransaction, h1, h2, h3]
  · obtain ⟨h1, h2, h3⟩ := h
    simp [transactionContext.Provider, transactionContext.wasRollbacked,
      transactionContext.inTransaction, transactionContext.providerWithoutTransaction,
      h1, h2, h3]
  · have h' : c.rollbacked = true := h
    simp [transactionContext.Provider, transactionContext.wasRollbacked, h']

/-- C8 witness: `Provider` evaluated on concrete Active, Idle and
RolledBack contexts. -/
theorem C8_provider_by_state_witness :
    (activeCtx.Active ∧ activeCtx.Provider = activeCtx.tx) ∧
    ((newTransactionContext holder0).Idle ∧
      (newTransactionContext holder0).Provider =
        some (newTransactionContext holder0).dbHolder.dbConnection) ∧
    (rolledBackCtx.RolledBack ∧ rolledBackCtx.Provider = none) :=
  ⟨⟨by decide, (C8_provider_by_state activeCtx).1 (by decide)⟩,
   ⟨by decide, (C8_provider_by_state (newTransactionContext holder0)).2.1 (by decide)⟩,
   ⟨by decide, (C8_provider_by_state rolledBackCtx).2.2 (by decide)⟩⟩

/-- C9: `Rollback` on an Idle context returns nil, issues no database
action, and leaves the context unchanged, whatever the database's answer
to a rollback would have been. -/
theorem C9_rollback_idle_noop (c : transactionContext) (e : Option String)
    (h : c.Idle) :
    c.Rollback e = { err := none, ctx := c, actions := [] } := by
  obtain ⟨h1, h2, h3⟩ := h
  simp [transactionContext.Rollback, transactionContext.wasRollbacked,
    transactionContext.inTransaction, h1, h2, h3]

/-- C9 witness: `Rollback` on a concrete fresh context. -/
theorem C9_rollback_idle_noop_witness :
    (newTransactionContext holder0).Idle ∧
    (newTransactionContext holder0).Rollback none =
      { err := none, ctx := newTransactionContext holder0, actions := [] } :=
  ⟨by decide, C9_rollback_idle_noop (newTransactionContext holder0) none (by decide)⟩

/-- C10: the first `NewDBHolderInstance` call stores the holder built from
the first caller's configuration and opens exactly one connection; every
later call, with any configuration, returns that same stored holder and
leaves the state (including the open count) unchanged. -/
theorem C10_holder_singleton (cfg1 : Option PgConfig) :
    (NewDBHolderInstance cfg1 initialHolderState).1 =
      some (NewDBHolder (NewConnect cfg1)) ∧
    (NewDBHolderInstance cfg1 initialHolderState).2.opens = 1 ∧
    (∀ cfg2, NewDBHolderInstance cfg2 (NewDBHolderInstance cfg1 initialHolderState).2 =
      ((NewDBHolderInstance cfg1 initialHolderState).1,
        (NewDBHolderInstance cfg1 initialHolderState).2)) ∧
    (∀ cfg2 st, st.onceDone = true →
      NewDBHolderInstance cfg2 st = (st.dbHolder, st)) := by
  refine ⟨rfl, rfl, fun cfg2 => rfl, fun cfg2 st hst => ?_⟩
  simp [NewDBHolderInstance, hst]

/-- C10 witness: a first call with a nil configuration followed by a call
with a different, non-nil configuration. -/
theorem C10_holder_singleton_witness :
    (NewDBHolderInstance none initialHolderState).2.onceDone = true ∧
    NewDBHolderInstance (some sampleCfg) (NewDBHolderInstance none initialHolderState).2 =
      ((NewDBHolderInstance none initialHolderState).2.dbHolder,
        (NewDBHolderInstance none initialHolderState).2) :=
  ⟨by decide,
    (C10_holder_singleton none).2.2.2 (some sampleCfg)
      (NewDBHolderInstance none initialHolderState).2 (by decide)⟩

end GormUOW
